import Mathlib

/-!
# SunoSaathi — frame acquisition and landmark-extraction pipeline

Shallow embedding of the keypoint-extraction pipeline of the SunoSaathi
repository: the four keypoint extractors (MediaPipeService, DeafUserInterface,
DatasetProcessor, VideoProcessor), the live recording controller
(DeafUserInterface), the batch dataset-processing loop (DatasetProcessor),
the video-processor retry loop (VideoProcessor), and the frame driver with
its single in-flight-send flag.  Coordinates are modelled as rationals
(the source works with JS numbers used as normalized coordinates).
-/

namespace SunoSaathi

/-- One 3D landmark point `[x, y, z]` as pushed by every extractor. -/
abbrev Point : Type := ℚ × ℚ × ℚ

/-- The `[0, 0, 0]` triple pushed for every point of an undetected group. -/
def zeroPoint : Point := (0, 0, 0)

/-- MediaPipe Holistic results object: each landmark group is either absent
(`none`, the JS field is `undefined`) or a list of landmark points. -/
structure HolisticResults where
  poseLandmarks : Option (List Point)
  faceLandmarks : Option (List Point)
  leftHandLandmarks : Option (List Point)
  rightHandLandmarks : Option (List Point)

/-- One landmark-group block of an extractor: the detected points when the
group is present, otherwise `n` zero triples (the `else` zero-fill loop). -/
def groupPoints (o : Option (List Point)) (n : Nat) : List Point :=
  match o with
  | some ls => ls
  | none => List.replicate n zeroPoint

/-- A MediaPipe results object is well formed when every *detected* group has
its fixed MediaPipe cardinality: 33 pose, 468 face, 21 per hand.  (MediaPipe
Holistic always delivers exactly these counts for a detected group.) -/
def WellFormed (r : HolisticResults) : Prop :=
  (∀ ls, r.poseLandmarks = some ls → ls.length = 33) ∧
  (∀ ls, r.faceLandmarks = some ls → ls.length = 468) ∧
  (∀ ls, r.leftHandLandmarks = some ls → ls.length = 21) ∧
  (∀ ls, r.rightHandLandmarks = some ls → ls.length = 21)

/-- `extractKeypoints` of `DeafUserInterface` (part_002 lines 277–327):
pose (33), then face (468), then left hand (21), then right hand (21),
each block zero-filled when the group was not detected. -/
def extractKeypointsLive (r : HolisticResults) : List Point :=
  groupPoints r.poseLandmarks 33 ++
  (groupPoints r.faceLandmarks 468 ++
  (groupPoints r.leftHandLandmarks 21 ++
  groupPoints r.rightHandLandmarks 21))

/-- `extractKeypoints` of `DatasetProcessor` (part_002 lines 1040–1056):
pose, face, left hand, right hand. -/
def extractKeypointsDataset (r : HolisticResults) : List Point :=
  groupPoints r.poseLandmarks 33 ++
  (groupPoints r.faceLandmarks 468 ++
  (groupPoints r.leftHandLandmarks 21 ++
  groupPoints r.rightHandLandmarks 21))

/-- `MediaPipeService.extractKeypoints` (part_000 lines 74–123):
pose (33), then **left hand (21), right hand (21)**, then face (468). -/
def extractKeypointsMPS (r : HolisticResults) : List Point :=
  groupPoints r.poseLandmarks 33 ++
  (groupPoints r.leftHandLandmarks 21 ++
  (groupPoints r.rightHandLandmarks 21 ++
  groupPoints r.faceLandmarks 468))

/-- The keypoint extraction inside `handleResults` of `VideoProcessor`
(part_002 lines 1295–1321): `addPoints` over pose (33), left hand (21),
right hand (21), face (468). -/
def extractKeypointsVideo (r : HolisticResults) : List Point :=
  groupPoints r.poseLandmarks 33 ++
  (groupPoints r.leftHandLandmarks 21 ++
  (groupPoints r.rightHandLandmarks 21 ++
  groupPoints r.faceLandmarks 468))

theorem groupPoints_length (o : Option (List Point)) (n : Nat)
    (h : ∀ ls, o = some ls → ls.length = n) : (groupPoints o n).length = n := by
  cases o with
  | none => simp [groupPoints]
  | some ls => simpa [groupPoints] using h ls rfl

theorem groupPoints_none (n : Nat) :
    groupPoints none n = List.replicate n zeroPoint := rfl

/-- Results object with no group detected (all fields `undefined`). -/
def noneResults : HolisticResults := ⟨none, none, none, none⟩

theorem noneResults_wf : WellFormed noneResults :=
  ⟨fun _ h => Option.noConfusion h, fun _ h => Option.noConfusion h,
   fun _ h => Option.noConfusion h, fun _ h => Option.noConfusion h⟩

/-- Results object where only the left hand was detected, with all its
21 landmarks at `(1, 1, 1)`. -/
def lhOnlyResults : HolisticResults :=
  ⟨none, none, some (List.replicate 21 ((1 : ℚ), (1 : ℚ), (1 : ℚ))), none⟩

/-- **C1.** For every well-formed MediaPipe results input (detected groups
carry their fixed MediaPipe cardinality), every extractor emits exactly
543 `(x,y,z)` triples, and each undetected group contributes exactly its
fixed block (33 / 468 / 21 / 21) of `(0,0,0)` triples at its position in
the vector, so the output width does not depend on detection success.
(The group blocks are stated for the `DeafUserInterface` extractor, whose
order is pose, face, left hand, right hand.) -/
theorem keypoint_vector_fixed_width (r : HolisticResults) (h : WellFormed r) :
    (extractKeypointsLive r).length = 543 ∧
    (extractKeypointsDataset r).length = 543 ∧
    (extractKeypointsMPS r).length = 543 ∧
    (extractKeypointsVideo r).length = 543 ∧
    (r.poseLandmarks = none →
      (extractKeypointsLive r).take 33 = List.replicate 33 zeroPoint) ∧
    (r.faceLandmarks = none →
      ((extractKeypointsLive r).drop 33).take 468 = List.replicate 468 zeroPoint) ∧
    (r.leftHandLandmarks = none →
      ((extractKeypointsLive r).drop 501).take 21 = List.replicate 21 zeroPoint) ∧
    (r.rightHandLandmarks = none →
      (extractKeypointsLive r).drop 522 = List.replicate 21 zeroPoint) := by
  obtain ⟨hp, hf, hl, hr⟩ := h
  have lp := groupPoints_length r.poseLandmarks 33 hp
  have lf := groupPoints_length r.faceLandmarks 468 hf
  have ll := groupPoints_length r.leftHandLandmarks 21 hl
  have lr := groupPoints_length r.rightHandLandmarks 21 hr
  have hdrop33 : (extractKeypointsLive r).drop 33 =
      groupPoints r.faceLandmarks 468 ++
      (groupPoints r.leftHandLandmarks 21 ++ groupPoints r.rightHandLandmarks 21) := by
    unfold extractKeypointsLive
    exact List.drop_left' lp
  have hdrop501 : (extractKeypointsLive r).drop 501 =
      groupPoints r.leftHandLandmarks 21 ++ groupPoints r.rightHandLandmarks 21 := by
    have h1 : ((extractKeypointsLive r).drop 33).drop 468 =
        (extractKeypointsLive r).drop 501 := List.drop_drop 468 33 _
    rw [← h1, hdrop33]
    exact List.drop_left' lf
  have hdrop522 : (extractKeypointsLive r).drop 522 =
      groupPoints r.rightHandLandmarks 21 := by
    have h1 : ((extractKeypointsLive r).drop 501).drop 21 =
        (extractKeypointsLive r).drop 522 := List.drop_drop 21 501 _
    rw [← h1, hdrop501]
    exact List.drop_left' ll
  refine ⟨?_, ?_, ?_, ?_, ?_, ?_, ?_, ?_⟩
  · simp [extractKeypointsLive, lp, lf, ll, lr]
  · simp [extractKeypointsDataset, lp, lf, ll, lr]
  · simp [extractKeypointsMPS, lp, lf, ll, lr]
  · simp [extractKeypointsVideo, lp, lf, ll, lr]
  · intro hnone
    unfold extractKeypointsLive
    rw [List.take_left' lp, hnone, groupPoints_none]
  · intro hnone
    rw [hdrop33, List.take_left' lf, hnone, groupPoints_none]
  · intro hnone
    rw [hdrop501, List.take_left' ll, hnone, groupPoints_none]
  · intro hnone
    rw [hdrop522, hnone, groupPoints_none]

/-- Witness for C1: the all-undetected results object is well formed and the
theorem's conclusion holds on it. -/
theorem keypoint_vector_fixed_width_witness :
    WellFormed noneResults ∧
    ((extractKeypointsLive noneResults).length = 543 ∧
     (extractKeypointsDataset noneResults).length = 543 ∧
     (extractKeypointsMPS noneResults).length = 543 ∧
     (extractKeypointsVideo noneResults).length = 543 ∧
     (noneResults.poseLandmarks = none →
       (extractKeypointsLive noneResults).take 33 = List.replicate 33 zeroPoint) ∧
     (noneResults.faceLandmarks = none →
       ((extractKeypointsLive noneResults).drop 33).take 468 =
         List.replicate 468 zeroPoint) ∧
     (noneResults.leftHandLandmarks = none →
       ((extractKeypointsLive noneResults).drop 501).take 21 =
         List.replicate 21 zeroPoint) ∧
     (noneResults.rightHandLandmarks = none →
       (extractKeypointsLive noneResults).drop 522 = List.replicate 21 zeroPoint)) :=
  ⟨noneResults_wf, keypoint_vector_fixed_width noneResults noneResults_wf⟩

/-- **C2 (counterexample).** The claim "every keypoint extractor computes the
same function" is false: on a results object where only the left hand was
detected (21 points at `(1,1,1)`), the `DeafUserInterface` extractor
(order pose, face, left hand, right hand) and the `MediaPipeService`
extractor (order pose, left hand, right hand, face) disagree — already at
index 33, which is a face zero for the former and a left-hand point for the
latter. -/
theorem extractor_order_counterexample :
    extractKeypointsLive lhOnlyResults ≠ extractKeypointsMPS lhOnlyResults := by
  intro h
  have h33 : ((extractKeypointsLive lhOnlyResults).drop 33).head? =
      ((extractKeypointsMPS lhOnlyResults).drop 33).head? := by rw [h]
  have hlive : ((extractKeypointsLive lhOnlyResults).drop 33).head? =
      some zeroPoint := rfl
  have hmps : ((extractKeypointsMPS lhOnlyResults).drop 33).head? =
      some ((1 : ℚ), (1 : ℚ), (1 : ℚ)) := rfl
  rw [hlive, hmps] at h33
  simp only [Option.some.injEq, zeroPoint, Prod.mk.injEq] at h33
  exact absurd h33.1 (by norm_num)

/-- **C2 (amended).** The live-interface extractor and the batch
dataset-processor extractor compute the same function (group order pose,
face, left hand, right hand), and the video-processor extractor and the
MediaPipe-service extractor compute the same function (group order pose,
left hand, right hand, face); each produces a 543-triple vector, but the
two pairs use different group orders, so a position index refers to the
same anatomical point only within each pair, not across the two pairs. -/
theorem extractor_pairwise_equal (r : HolisticResults) :
    extractKeypointsLive r = extractKeypointsDataset r ∧
    extractKeypointsVideo r = extractKeypointsMPS r :=
  ⟨rfl, rfl⟩

/-! ## Live recording controller (`DeafUserInterface`, part_002 lines 110–507) -/

/-- One buffered frame: `{ frame_id, keypoints }` (part_002 lines 259–262). -/
structure Frame where
  frame_id : Nat
  keypoints : List Point
deriving DecidableEq

/-- One demo sign entry of the `demoSigns` table (part_002 lines 441–447);
the display label is abbreviated to its `id`, the `text` field is verbatim. -/
structure DemoSign where
  id : String
  text : String
deriving DecidableEq

/-- The five demo signs selectable by digit keys 1–5 (part_002 lines 441–447). -/
def demoSigns : List DemoSign :=
  [⟨"hello", "hello"⟩, ⟨"how_are_you", "how are you"⟩,
   ⟨"good_morning", "good morning"⟩, ⟨"good_afternoon", "good afternoon"⟩,
   ⟨"alright", "alright"⟩]

/-- The demo confidence score (part_002 line 465):
`(Math.random() * (0.94 - 0.82) + 0.82).toFixed(2)` for a random draw
`r ∈ [0, 1)`; `toFixed(2)` rounds to two decimals. -/
def demoConf (r : ℚ) : ℚ :=
  ((round ((r * (94/100 - 82/100) + 82/100) * 100) : ℤ) : ℚ) / 100

/-- The demo processing delay in ms (part_002 line 458):
`Math.floor(Math.random() * 1400) + 800` for a random draw `r ∈ [0, 1)`. -/
def demoDelay (r : ℚ) : ℤ := ⌊r * 1400⌋ + 800

/-- Mutable state of the `DeafUserInterface` recording controller: the
`isRecordingRef`, `framesRef`, `frameCountRef` and `demoOverrideRef` refs,
plus two observation counters: `submissions` counts the calls to the
recognition collaborator (`apiService.processDeafUserMessage`), and
`demoResult` holds the last demo-mode report `(text, confidence)`. -/
structure LiveState where
  isRecording : Bool
  frames : List Frame
  frameCount : Nat
  demoOverride : Option DemoSign
  submissions : Nat
  demoResult : Option (String × ℚ)
deriving DecidableEq

/-- Controller state right after initialization. -/
def initLive : LiveState :=
  { isRecording := false, frames := [], frameCount := 0,
    demoOverride := none, submissions := 0, demoResult := none }

/-- `startRecording` (part_002 lines 342–353): clears the frame buffer,
resets the frame counter to 0, sets the recording flag, clears shown text. -/
def startRecording (s : LiveState) : LiveState :=
  { s with
    frames := []
    frameCount := 0
    isRecording := true
    demoResult := none }

/-- `processDemoSign` (part_002 lines 452–489): reports the preset sign text
with a rounded pseudo-random confidence, makes no recognition call, and
clears the override in its `finally` block.  `rc` is the random draw used
for the confidence. -/
def processDemoSign (sign : DemoSign) (rc : ℚ) (s : LiveState) : LiveState :=
  { s with demoResult := some (sign.text, demoConf rc), demoOverride := none }

/-- `stopRecording` (part_002 lines 356–426): clears the recording flag; if a
demo override is queued, runs `processDemoSign` and returns; otherwise, when
at least one frame was collected, submits the buffer once to the recognition
collaborator (counted in `submissions`).  There is no guard against a second
invocation: the frame buffer is not cleared and no Stopping flag is checked.
`rc` is the random draw consumed by a demo override, unused otherwise. -/
def stopRecording (rc : ℚ) (s : LiveState) : LiveState :=
  let s1 := { s with isRecording := false }
  match s1.demoOverride with
  | some sign => processDemoSign sign rc s1
  | none =>
    if s1.frames.length = 0 then s1
    else { s1 with submissions := s1.submissions + 1 }

/-- The frame-collection part of `handleMediaPipeResults` (part_002 lines
256–272): while recording, append `{ frame_id := frameCount, keypoints }`
and increment the counter; otherwise ignore the result. -/
def handleMediaPipeResults (kp : List Point) (s : LiveState) : LiveState :=
  if s.isRecording then
    { s with
      frames := s.frames ++ [⟨s.frameCount, kp⟩]
      frameCount := s.frameCount + 1 }
  else s

/-- JS `parseInt` on a single key character: its digit value, or `none`
(`NaN`) for a non-digit (in which case the index test below fails). -/
def digitToNat (c : Char) : Option Nat :=
  if c.isDigit then some (c.toNat - '0'.toNat) else none

/-- The `handleKeyPress` effect (part_002 lines 491–507):
`index = parseInt(key) - 1`; when `0 ≤ index < demoSigns.length`, queue
`demoSigns[index]` as the demo override. -/
def handleKeyPress (key : Char) (s : LiveState) : LiveState :=
  match digitToNat key with
  | some d =>
    let index : ℤ := (d : ℤ) - 1
    if 0 ≤ index ∧ index < (demoSigns.length : ℤ) then
      { s with demoOverride := demoSigns.get? index.toNat }
    else s
  | none => s

/-- A recording-in-progress state with one collected frame and no override. -/
def recState : LiveState :=
  { isRecording := true, frames := [⟨0, []⟩], frameCount := 1,
    demoOverride := none, submissions := 0, demoResult := none }

/-- **C3 (counterexample).** The claim "calling `stop()` twice in immediate
succession while Recording produces exactly one recognition submission" is
false: from a Recording state with one collected frame and no demo override,
two successive `stopRecording` calls make two submissions, because
`stopRecording` neither clears the frame buffer nor checks a Stopping
state. -/
theorem stop_twice_counterexample :
    (stopRecording 0 (stopRecording 0 recState)).submissions ≠ 1 := by
  decide

/-- **C3 (amended).** `stop()` is not idempotent: whenever no demo override
is queued and the frame buffer is non-empty, every `stopRecording` call
submits, so two calls in immediate succession produce exactly two
recognition submissions (one per call), not one. -/
theorem stop_twice_two_submissions (s : LiveState) (r₁ r₂ : ℚ)
    (h₁ : s.demoOverride = none) (h₂ : s.frames ≠ []) :
    (stopRecording r₂ (stopRecording r₁ s)).submissions = s.submissions + 2 := by
  have hlen : ¬ s.frames.length = 0 := by
    simpa [List.length_eq_zero] using h₂
  simp [stopRecording, h₁, hlen]

/-- Witness for C3's amended theorem at the concrete Recording state. -/
theorem stop_twice_two_submissions_witness :
    recState.demoOverride = none ∧ recState.frames ≠ [] ∧
    (stopRecording 0 (stopRecording 0 recState)).submissions =
      recState.submissions + 2 :=
  ⟨rfl, by decide, stop_twice_two_submissions recState 0 0 rfl (by decide)⟩

/-! ## Zero-frame sessions and the persistence / recognition collaborators -/

/-- The `videoEl.onended` handler of `DatasetProcessor.processVideoSimple`
(part_002 lines 972–980): call `saveData` only when `frames.length > 0`,
otherwise only log a warning.  Returns the updated count of `saveData`
calls. -/
def onVideoEnded (frames : List Frame) (saves : Nat) : Nat :=
  if frames.length > 0 then saves + 1 else saves

/-- `saveResults` of `VideoProcessor` (part_002 lines 1427–1449): returns
early when no frames were extracted, otherwise posts the sample once.
Returns the updated count of persistence posts. -/
def saveResults (frames : List Frame) (saves : Nat) : Nat :=
  if frames.length = 0 then saves else saves + 1

/-- **C7.** A session that completes with zero collected frames is never
handed to the persistence sink or the recognition collaborator: the batch
`onended` handler and `saveResults` leave the save count unchanged on an
empty frame list, and `stopRecording` on a controller state with an empty
buffer makes no recognition submission (on the demo-override path it never
submits at all). -/
theorem zero_frames_never_persisted (saves : Nat) (s : LiveState) (r : ℚ)
    (h : s.frames = []) :
    onVideoEnded [] saves = saves ∧
    saveResults [] saves = saves ∧
    (stopRecording r s).submissions = s.submissions := by
  refine ⟨rfl, rfl, ?_⟩
  cases hov : s.demoOverride with
  | some sign => simp [stopRecording, hov, processDemoSign]
  | none => simp [stopRecording, hov, h]

/-- Witness for C7 at the freshly initialized controller state. -/
theorem zero_frames_never_persisted_witness :
    initLive.frames = [] ∧
    (onVideoEnded [] 0 = 0 ∧ saveResults [] 0 = 0 ∧
     (stopRecording 0 initLive).submissions = initLive.submissions) :=
  ⟨rfl, zero_frames_never_persisted 0 initLive 0 rfl⟩

/-! ## Frame-id contiguity (C8) -/

/-- The events that drive the live controller: `start`/`stop` clicks, a
MediaPipe result delivery, and a key press (`stop` carries the random draw
a queued demo override would consume). -/
inductive LiveEvent
  | start
  | stop (rc : ℚ)
  | result (kp : List Point)
  | key (c : Char)

/-- Dispatch one event to the controller. -/
def liveStep (s : LiveState) (e : LiveEvent) : LiveState :=
  match e with
  | .start => startRecording s
  | .stop rc => stopRecording rc s
  | .result kp => handleMediaPipeResults kp s
  | .key c => handleKeyPress c s

/-- Controller state after a sequence of events from initialization. -/
def liveRun (evs : List LiveEvent) : LiveState := evs.foldl liveStep initLive

/-- The frame-id invariant: the counter equals the buffer length and the
buffered `frame_id`s are exactly `0, 1, …, length − 1` in buffer order. -/
def FrameIdsContiguous (s : LiveState) : Prop :=
  s.frameCount = s.frames.length ∧
  s.frames.map Frame.frame_id = List.range s.frames.length

theorem frameIds_step {s : LiveState} (e : LiveEvent)
    (h : FrameIdsContiguous s) : FrameIdsContiguous (liveStep s e) := by
  obtain ⟨hc, hm⟩ := h
  cases e with
  | start =>
    simp [liveStep, startRecording, FrameIdsContiguous]
  | stop rc =>
    cases hov : s.demoOverride with
    | some sign =>
      exact ⟨by simp [liveStep, stopRecording, hov, processDemoSign, hc],
             by simp [liveStep, stopRecording, hov, processDemoSign, hm]⟩
    | none =>
      constructor
      · simp only [liveStep, stopRecording, hov]
        split <;> simpa using hc
      · simp only [liveStep, stopRecording, hov]
        split <;> simpa using hm
  | result kp =>
    by_cases hrec : s.isRecording
    · refine ⟨?_, ?_⟩
      · simp [liveStep, handleMediaPipeResults, hrec, hc]
      · simp only [liveStep, handleMediaPipeResults, hrec, if_pos,
          List.map_append, List.length_append, hm, hc, List.map_cons,
          List.map_nil, List.length_cons, List.length_nil]
        rw [show s.frames.length + (0 + 1) = s.frames.length + 1 by omega,
          List.range_succ]
    · exact ⟨by simp [liveStep, handleMediaPipeResults, hrec, hc],
             by simp [liveStep, handleMediaPipeResults, hrec, hm]⟩
  | key c =>
    cases hd : digitToNat c with
    | some d =>
      constructor
      · simp only [liveStep, handleKeyPress, hd]
        split <;> simpa using hc
      · simp only [liveStep, handleKeyPress, hd]
        split <;> simpa using hm
    | none =>
      exact ⟨by simp [liveStep, handleKeyPress, hd, hc],
             by simp [liveStep, handleKeyPress, hd, hm]⟩

theorem frameIds_run (evs : List LiveEvent) (s : LiveState)
    (h : FrameIdsContiguous s) : FrameIdsContiguous (evs.foldl liveStep s) := by
  induction evs generalizing s with
  | nil => exact h
  | cons e evs ih => exact ih _ (frameIds_step e h)

/-- Per-video frame collection of `DatasetProcessor.processVideoSimple`
(part_002 lines 947–965): the local `frames` array and `frameId` counter
start at `[]` / `0` for each video, and the `onResults` handler pushes
`{ frame_id: frameId++, keypoints }` for every delivered result. -/
def dpCollectAux (frameId : Nat) : List (List Point) → List Frame
  | [] => []
  | kp :: rest => ⟨frameId, kp⟩ :: dpCollectAux (frameId + 1) rest

/-- The frames buffered for one batch video given its delivered results. -/
def dpCollect (kps : List (List Point)) : List Frame := dpCollectAux 0 kps

theorem dpCollectAux_map (n : Nat) (kps : List (List Point)) :
    (dpCollectAux n kps).map Frame.frame_id = List.range' n kps.length := by
  induction kps generalizing n with
  | nil => rfl
  | cons kp rest ih => simp [dpCollectAux, List.range', ih]

theorem dpCollectAux_length (n : Nat) (kps : List (List Point)) :
    (dpCollectAux n kps).length = kps.length := by
  induction kps generalizing n with
  | nil => rfl
  | cons kp rest ih => simp [dpCollectAux, ih]

/-- **C8.** In every controller state reachable by any event sequence, the
buffered `frame_id`s are exactly the contiguous range `0..N−1` in buffer
order (no gaps, no duplicates) with the frame counter equal to the buffer
length; `startRecording` resets the counter to 0 and empties the buffer;
and the batch processor's per-video collection satisfies the same
contiguous-range property. -/
theorem frame_ids_contiguous :
    (∀ evs : List LiveEvent, FrameIdsContiguous (liveRun evs)) ∧
    (∀ s : LiveState,
      (startRecording s).frames = [] ∧ (startRecording s).frameCount = 0) ∧
    (∀ kps : List (List Point),
      (dpCollect kps).map Frame.frame_id = List.range (dpCollect kps).length) := by
  refine ⟨fun evs => frameIds_run evs initLive ⟨rfl, rfl⟩,
          fun s => ⟨rfl, rfl⟩, fun kps => ?_⟩
  rw [dpCollect, dpCollectAux_map, dpCollectAux_length, List.range_eq_range']

/-! ## Batch dataset-processing loop (`DatasetProcessor`, part_002 lines 858–1056) -/

/-- Behaviour of one batch video job as observed by `processVideoSimple`:
it plays to the end having delivered `nframes` results, or the engine
`send` throws after `nbefore` results, or the source fails to load. -/
inductive JobRun
  | ok (nframes : Nat)
  | crash (nbefore : Nat)
  | loadError
deriving DecidableEq

/-- Observable state of the batch run: `recycles` counts the
`createHolisticInstance` calls made during the loop, `generation` numbers
the current engine instance (0 = the instance created at mount),
`saves` counts the `saveData` posts, and `jobGens` records, per processed
job, the engine generation that job's sends went to. -/
structure BatchState where
  recycles : Nat
  generation : Nat
  saves : Nat
  jobGens : List Nat
deriving DecidableEq

/-- Batch state at the start of `startProcessing`: the engine instance
created at component mount is generation 0. -/
def initBatch : BatchState := ⟨0, 0, 0, []⟩

/-- `createHolisticInstance` (part_002 lines 878–900): closes the current
engine instance and creates a fresh one — the recycle operation. -/
def createHolisticInstance (s : BatchState) : BatchState :=
  { s with
    recycles := s.recycles + 1
    generation := s.generation + 1 }

/-- `processVideoSimple` (part_002 lines 939–1021).  Every terminal path of
the promise executor calls `resolve()`: normal video end (posting
`saveData` only when `frames.length > 0`), a source load error, a play
error, and the engine-send crash path (lines 996–1004 pause the video, log,
and `resolve()`); `reject` is never invoked, so the returned promise always
fulfills and the caller's `catch` never fires. -/
def processVideoSimple (j : JobRun) (s : BatchState) : BatchState :=
  match j with
  | .ok n => if 0 < n then { s with saves := s.saves + 1 } else s
  | .crash _ => s
  | .loadError => s

/-- `startProcessing` (part_002 lines 913–937).  `P` is the value of the
React state `processedCount` captured by the closure that runs the loop:
`setProcessedCount` only schedules state for future renders and never
mutates the `processedCount` binding this running async function reads, so
the periodic-recycle test `processedCount > 0 && processedCount % 20 === 0`
evaluates the same captured `P` on every iteration (it is 0 when the button
is first clicked, since `startProcessing` was created by a render with
`processedCount = 0`).  Because `processVideoSimple` always fulfills, the
`catch` branch — the only other `createHolisticInstance` call site — is
unreachable. -/
def startProcessing (P : Nat) : List JobRun → BatchState → BatchState
  | [], s => s
  | j :: js, s =>
    let s1 := if 0 < P ∧ P % 20 = 0 then createHolisticInstance s else s
    let s2 := processVideoSimple j { s1 with jobGens := s1.jobGens ++ [s1.generation] }
    startProcessing P js s2

/-- **C4.** With the captured `processedCount` equal to 0 (the value at the
first click), the batch loop performs **zero** engine recycles on any job
list — with or without fatal engine errors — whereas the claim (and the
code's own comment "Re-init every 10 videos or on error") expects
`⌊M / 20⌋` periodic recycles plus one per fatal error.  In particular a
crash-free run of 20 jobs performs 0 recycles, not `⌊20 / 20⌋ = 1`. -/
theorem recycles_never_happen :
    (∀ (js : List JobRun) (s : BatchState),
      (startProcessing 0 js s).recycles = s.recycles) ∧
    (startProcessing 0 (List.replicate 20 (JobRun.ok 1)) initBatch).recycles = 0 := by
  have main : ∀ (js : List JobRun) (s : BatchState),
      (startProcessing 0 js s).recycles = s.recycles := by
    intro js
    induction js with
    | nil => intro s; rfl
    | cons j js ih =>
      intro s
      simp only [startProcessing, Nat.lt_irrefl, false_and, if_false, ih]
      cases j with
      | ok n =>
        simp only [processVideoSimple]
        split <;> rfl
      | crash m => rfl
      | loadError => rfl
  exact ⟨main, main _ _⟩

/-- The C6 scenario: six jobs where the engine send throws on job 5
(the fifth list entry) and every other job completes with one frame. -/
def crashJobs : List JobRun :=
  [.ok 1, .ok 1, .ok 1, .ok 1, .crash 0, .ok 1]

/-- **C6.** When the engine send throws on job 5, the code performs **zero**
engine recycles (the crash path of `processVideoSimple` resolves instead of
rejecting, so `startProcessing`'s `catch` — whose comment says "parent loop
will re-init" — never runs), and job 6 proceeds against the *same* engine
generation that crashed on job 5, not a fresh handle.  The crashed job is
not saved and not retried (5 saves for the five crash-free jobs, 6 entries in
`jobGens`). -/
theorem crash_yields_no_recycle :
    (startProcessing 0 crashJobs initBatch).recycles = 0 ∧
    (startProcessing 0 crashJobs initBatch).jobGens = [0, 0, 0, 0, 0, 0] ∧
    (startProcessing 0 crashJobs initBatch).saves = 5 := by
  decide

/-! ## VideoProcessor stall-retry loop (part_002 lines 1342–1412) -/

/-- Terminal outcome of one manifest entry in `VideoProcessor`. -/
inductive VPOutcome
  | saved
  | failed
deriving DecidableEq

/-- `playVideo` (part_002 lines 1342–1375) specialized to a job whose source
delivers **zero** frames within the stall window: each attempt's 12 s
safety timeout observes `currentFramesRef.current.length === 0` and calls
`playVideo(retryCount + 1)`; once `retryCount > 3` the guard throws
"Max retries exceeded" before playing, the catch logs the error and
advances to the next video, and `saveResults` — reached only when frames
exist — is never invoked.  Returns (play attempts, `saveResults` calls,
outcome). -/
def playVideoStalled (retryCount : Nat) : Nat × Nat × VPOutcome :=
  if h : retryCount > 3 then (0, 0, .failed)
  else
    let rest := playVideoStalled (retryCount + 1)
    (rest.1 + 1, rest.2.1, rest.2.2)
termination_by 4 - retryCount
decreasing_by omega

/-- **C5.** A batch job whose source produces zero frames within the stall
window is played once and then retried exactly 3 times (`retryCount`
1, 2, 3 — four play attempts in total), after which the attempt with
`retryCount = 4` fails on the retry cap without playing: the job ends
`failed` with zero `saveResults` calls, and the retry loop terminates
(the recursion is well founded on `4 − retryCount`). -/
theorem stalled_job_retried_three_times :
    playVideoStalled 0 = (4, 0, VPOutcome.failed) := by
  simp [playVideoStalled]

/-! ## Frame driver in-flight discipline (part_002 lines 947–1012) -/

/-- State of the batch frame driver for one session: the `isProcessingFrame`
flag (`inFlight`), the number of `holistic.send` calls issued (`sends`),
the frames offered while a send was outstanding and therefore dropped
(`drops`), the result callbacks received (`results`), and the sends that
threw (`errors`). -/
structure DriverState where
  inFlight : Bool
  sends : Nat
  drops : Nat
  results : Nat
  errors : Nat
deriving DecidableEq

/-- Driver state at session start: `isProcessingFrame = false`, nothing
sent. -/
def initDriver : DriverState := ⟨false, 0, 0, 0, 0⟩

/-- One scheduling step of `processNextFrame` and the `onResults` callback
(part_002 lines 959–1012), under JS single-threaded execution:

* `frameIdle` — a frame callback fires with no send outstanding: the flag is
  set and one `holistic.send` is issued (lines 990–995);
* `frameBusy` — a frame callback fires while a send is outstanding: the
  `!isProcessingFrame` guard skips the send and the frame is dropped, not
  queued (line 990);
* `resultArrives` — the engine's result callback for the outstanding send
  clears the flag (lines 960–964);
* `sendFails` — the outstanding send throws: the catch clears the flag and
  the session is aborted (lines 996–1004).

Results and errors only occur while a send is outstanding, since the
synchronous engine produces exactly one callback per send. -/
inductive DriverStep : DriverState → DriverState → Prop
  | frameIdle (s : DriverState) (h : s.inFlight = false) :
      DriverStep s { s with
        inFlight := true
        sends := s.sends + 1 }
  | frameBusy (s : DriverState) (h : s.inFlight = true) :
      DriverStep s { s with drops := s.drops + 1 }
  | resultArrives (s : DriverState) (h : s.inFlight = true) :
      DriverStep s { s with
        inFlight := false
        results := s.results + 1 }
  | sendFails (s : DriverState) (h : s.inFlight = true) :
      DriverStep s { s with
        inFlight := false
        errors := s.errors + 1 }

/-- States the frame driver can reach from session start. -/
inductive DriverReachable : DriverState → Prop
  | init : DriverReachable initDriver
  | step {s t : DriverState} :
      DriverReachable s → DriverStep s t → DriverReachable t

/-- **C9.** The engine never receives two overlapping sends: in every
reachable driver state the number of sends that have not yet completed or
errored is `1` when a send is in flight and `0` otherwise (so it never
reaches 2); a step can increase `sends` only from a state with no send
outstanding; and a frame offered while a send is outstanding is dropped —
its only enabled frame transition increments `drops` and leaves `sends`
unchanged. -/
theorem no_overlapping_sends :
    (∀ s : DriverState, DriverReachable s →
      s.sends = s.results + s.errors + (cond s.inFlight 1 0)) ∧
    (∀ s t : DriverState, DriverStep s t → s.sends < t.sends →
      s.inFlight = false ∧ t.sends = s.sends + 1) ∧
    (∀ s : DriverState, s.inFlight = true →
      DriverStep s { s with drops := s.drops + 1 }) := by
  refine ⟨?_, ?_, fun s h => DriverStep.frameBusy s h⟩
  · intro s hs
    induction hs with
    | init => rfl
    | step _ hst ih => cases hst <;> simp_all <;> omega
  · intro s t hst hlt
    cases hst <;> simp_all

/-- A reachable state with one send in flight. -/
def oneSendState : DriverState := ⟨true, 1, 0, 0, 0⟩

/-- Witness for C9: `oneSendState` is reachable by one `frameIdle` step and
satisfies the outstanding-send accounting. -/
theorem no_overlapping_sends_witness :
    DriverReachable oneSendState ∧
    oneSendState.sends =
      oneSendState.results + oneSendState.errors +
        (cond oneSendState.inFlight 1 0) := by
  have hr : DriverReachable oneSendState :=
    DriverReachable.step DriverReachable.init
      (DriverStep.frameIdle initDriver rfl)
  exact ⟨hr, no_overlapping_sends.1 oneSendState hr⟩

/-! ## Demo-mode override (C10) -/

theorem demoConf_bounds (r : ℚ) (h0 : 0 ≤ r) (h1 : r < 1) :
    82/100 ≤ demoConf r ∧ demoConf r ≤ 94/100 := by
  unfold demoConf
  set X : ℚ := (r * (94/100 - 82/100) + 82/100) * 100 with hX
  have hx0 : (82 : ℚ) ≤ X := by rw [hX]; nlinarith
  have hx1 : X < 94 := by rw [hX]; nlinarith
  have hr82 : (82 : ℤ) ≤ round X := by
    rw [round_eq]
    exact Int.le_floor.mpr (by push_cast; linarith)
  have hr94 : round X ≤ 94 := by
    rw [round_eq]
    have h95 : ⌊X + 1/2⌋ < 95 := Int.floor_lt.mpr (by push_cast; linarith)
    omega
  constructor
  · have h : (82 : ℚ) ≤ ((round X : ℤ) : ℚ) := by exact_mod_cast hr82
    linarith
  · have h : ((round X : ℤ) : ℚ) ≤ 94 := by exact_mod_cast hr94
    linarith

theorem demoDelay_bounds (r : ℚ) (h0 : 0 ≤ r) (h1 : r < 1) :
    800 ≤ demoDelay r ∧ demoDelay r ≤ 2199 := by
  unfold demoDelay
  have hd0 : (0 : ℤ) ≤ ⌊r * 1400⌋ := Int.le_floor.mpr (by push_cast; nlinarith)
  have hd1 : ⌊r * 1400⌋ < 1400 := Int.floor_lt.mpr (by push_cast; nlinarith)
  omega

/-- **C10.** Pressing digit key `'2'` queues demo sign index 1
(`how_are_you`) as the override, and `stopRecording` from any such state —
whatever the collected frames — makes **zero** calls to the recognition
collaborator and instead reports the preset sign text with confidence
`demoConf r`, which for every random draw `r ∈ [0, 1)` lies in
`[0.82, 0.94]`, after a delay `demoDelay r ∈ [800, 2199]` ms. -/
theorem demo_override_bypasses_recognition (s : LiveState) (r : ℚ)
    (h0 : 0 ≤ r) (h1 : r < 1) :
    (handleKeyPress '2' s).demoOverride = some ⟨"how_are_you", "how are you"⟩ ∧
    (stopRecording r (handleKeyPress '2' s)).submissions = s.submissions ∧
    (stopRecording r (handleKeyPress '2' s)).demoResult =
      some ("how are you", demoConf r) ∧
    82/100 ≤ demoConf r ∧ demoConf r ≤ 94/100 ∧
    800 ≤ demoDelay r ∧ demoDelay r ≤ 2199 := by
  obtain ⟨hcl, hcu⟩ := demoConf_bounds r h0 h1
  obtain ⟨hdl, hdu⟩ := demoDelay_bounds r h0 h1
  exact ⟨rfl, rfl, rfl, hcl, hcu, hdl, hdu⟩

/-- Witness for C10 at the initial controller state with random draw 1/2. -/
theorem demo_override_bypasses_recognition_witness :
    (0 : ℚ) ≤ 1/2 ∧ (1/2 : ℚ) < 1 ∧
    ((handleKeyPress '2' initLive).demoOverride =
        some ⟨"how_are_you", "how are you"⟩ ∧
     (stopRecording (1/2) (handleKeyPress '2' initLive)).submissions =
        initLive.submissions ∧
     (stopRecording (1/2) (handleKeyPress '2' initLive)).demoResult =
        some ("how are you", demoConf (1/2)) ∧
     82/100 ≤ demoConf (1/2 : ℚ) ∧ demoConf (1/2 : ℚ) ≤ 94/100 ∧
     800 ≤ demoDelay (1/2 : ℚ) ∧ demoDelay (1/2 : ℚ) ≤ 2199) :=
  ⟨by norm_num, by norm_num,
   demo_override_bypasses_recognition initLive (1/2) (by norm_num) (by norm_num)⟩

end SunoSaathi
